import Mathlib

/-!
Shallow embedding of the tool-dispatch gateway of next-mcp-playground.

The repository contains four variants of the `Tools` class:
  * `src/mcp/tools/tools.ts` — switch-based `executeCall` over six tool names,
    1000 ms timeout (namespace `ToolsSwitch`);
  * `src/mcp/mcp/tools/tools.ts` — registry object with six entries, 1000 ms
    timeout (namespace `ToolsRegistry`);
  * the first `Tools` class in `src/unnamed/part_005` — registry object with
    eighteen entries, 30000 ms timeout (namespace `ToolsFull`);
  * the second `Tools` class in `src/unnamed/part_005` — switch-based over one
    tool name, 1000 ms timeout, with `startTime` declared inside the try block
    (namespace `ToolsMinimal`).

Handlers perform external I/O, so a dispatch is modelled against an
environment `runs : String → Args → HandlerRun` giving, for each tool name and
argument object, how the corresponding handler promise behaves on this call:
with which outcome it settles (fulfilled value or rejection message) and after
how many milliseconds, or that it never settles.  The gateway code itself is
translated statement by statement from the source.

Every variant has a scope slip in its catch block: the catch reads an
identifier that is const-declared inside the try block — `name`, destructured
from `request.params`, in the three variants that hoist `startTime` above the
try; `startTime` itself in the fourth.  `const` is block-scoped and no
enclosing scope binds those identifiers (the process runs under tsx on Node,
whose global object has no `name` binding; the DOM lib declaration that
silences tsc does not exist at runtime), so the catch crashes with a
ReferenceError before reaching its `return` of the failure envelope.  Every
failure path of every variant therefore rejects with an unhandled
ReferenceError instead of returning the failure envelope.  Dispatch is
accordingly modelled as `Except String Envelope`: `Except.ok` for the value
the try block returns, `Except.error` for an error propagating unhandled to
the caller.
-/

/-- One content item of a response envelope, `type` and `text` fields. -/
structure TextContent where
  type : String
  text : String
deriving DecidableEq, Repr

/-- The response envelope returned to the caller: a list of content items. -/
structure Envelope where
  content : List TextContent
deriving DecidableEq, Repr

/-- How a settled promise ended: fulfilled with a value, or rejected with an
error whose `message` field is `msg`. -/
inductive PromiseOutcome where
  | fulfilled (v : Envelope)
  | rejected (msg : String)
deriving DecidableEq, Repr

/-- The behaviour of one handler promise on one call: its outcome, and the
time in milliseconds at which it settles (`none`: it never settles). -/
structure HandlerRun where
  outcome : PromiseOutcome
  settleTime : Option Nat
deriving DecidableEq, Repr

/-- Argument object passed to a handler, an unordered field-to-value mapping
modelled as an association list; the gateway never looks inside it. -/
def Args : Type := List (String × String)

instance : DecidableEq Args := by
  unfold Args
  infer_instance

/-- The empty argument object, the JS literal used in `args || \x7b\x7d`. -/
def emptyArgs : Args := []

/-- An invocation request: `request.params.name` and the possibly omitted
`request.params.arguments`. -/
structure CallRequest where
  name : String
  args : Option Args

/-- Behaviour environment: for each tool name and argument object, how the
handler promise behaves on this call. -/
def Runs : Type := String → Args → HandlerRun

/-- `Promise.race` of the handler promise against
`setTimeout(() => reject(new Error("Operation timed out")), timeout)`.
The timer callback is a macrotask that runs `timeout` ms after the race
starts, so a handler promise settling at `t ≤ timeout` wins the race (its
reaction is queued as a microtask no later than the timer callback) and the
race adopts its outcome; a handler settling later, or never, loses and the
race rejects with the timer error. -/
def raceWithTimeout (timeout : Nat) (run : HandlerRun) : PromiseOutcome :=
  match run.settleTime with
  | some t => if t ≤ timeout then run.outcome else .rejected "Operation timed out"
  | none => .rejected "Operation timed out"

/-- The failure envelope built by the return statement of the catch block:
`return \x7b content: [\x7b type: "text", text: error.message \x7d] \x7d`.
The return is unreachable in all four variants — the catch crashes on a
try-scoped const first (see `catchCrash`) — so this definition records the
envelope the code was written to produce, not one it ever returns. -/
def errEnvelope (msg : String) : Envelope :=
  { content := [{ type := "text", text := msg }] }

/-- `ErrorCode.MethodNotFound` from the MCP SDK, the JSON-RPC code. -/
def methodNotFoundCode : Int := -32601

/-- Message of an `McpError` as built by the MCP SDK constructor, which calls
`super` with the string `MCP error <code>: <message>`. -/
def mcpErrorMessage (code : Int) (msg : String) : String :=
  "MCP error " ++ toString code ++ ": " ++ msg

/-- Message of `new McpError(ErrorCode.MethodNotFound, "Unknown tool: " + name)`. -/
def unknownToolMessage (name : String) : String :=
  mcpErrorMessage methodNotFoundCode ("Unknown tool: " ++ name)

/-- A promise rejected as soon as it is created: an async function throwing
synchronously settles (as a microtask) at time 0. -/
def immediateReject (msg : String) : HandlerRun :=
  { outcome := .rejected msg, settleTime := some 0 }

/-- Message of the ReferenceError raised when the catch block of the three
variants that hoist `startTime` evaluates its log template, which reads
`name`: `name` is const-declared inside the try block and `const` is
block-scoped, so the read in the catch has no binding to resolve to. -/
def nameReferenceError : String := "ReferenceError: name is not defined"

/-- Message of the ReferenceError raised when the catch block of the fourth
variant computes the duration, reading the try-scoped `startTime`. -/
def startTimeReferenceError : String := "ReferenceError: startTime is not defined"

/-- The try/catch of `callSchema`: a fulfilled race result is returned by
the try block; a rejection enters the catch block, which crashes with the
given ReferenceError on its first access to a try-scoped const — before the
return of the failure envelope is reached — so the dispatch handler rejects
with that error instead of returning an envelope. -/
def catchCrash (refError : String) : PromiseOutcome → Except String Envelope
  | .fulfilled v => .ok v
  | .rejected _ => .error refError

namespace ToolsSwitch

/-- Names advertised by `listSchema` in `src/mcp/tools/tools.ts` lines 27-156,
in source order. -/
def listToolNames : List String :=
  ["create_user", "read_file", "write_file", "get_project_context",
   "get_file_structure", "search_codebase"]

/-- `Tools.executeCall` of `src/mcp/tools/tools.ts` lines 158-183: a switch on
the tool name invoking the matching handler with `args`
(`getProjectContext` is invoked with no arguments), defaulting to
`throw new McpError(ErrorCode.MethodNotFound, ...)` — an async function, so
the throw is an immediately rejected promise. -/
def executeCall (runs : Runs) (name : String) (args : Args) : HandlerRun :=
  match name with
  | "create_user" => runs "create_user" args
  | "read_file" => runs "read_file" args
  | "write_file" => runs "write_file" args
  | "get_project_context" => runs "get_project_context" emptyArgs
  | "get_file_structure" => runs "get_file_structure" args
  | "search_codebase" => runs "search_codebase" args
  | _ => immediateReject (unknownToolMessage name)

/-- The `CallToolRequestSchema` handler of `src/mcp/tools/tools.ts` lines
185-220: races `executeCall(name, args || \x7b\x7d)` against a 1000 ms timer
inside a try block.  The catch (lines 208-217) computes the duration from the
hoisted `startTime`, then evaluates the log template reading `name`, which is
const-scoped to the try block (line 192): it crashes with a ReferenceError
there, so a caught rejection propagates as that error and the
failure-envelope return on lines 214-216 is unreachable. -/
def callSchema (runs : Runs) (request : CallRequest) : Except String Envelope :=
  catchCrash nameReferenceError
    (raceWithTimeout 1000 (executeCall runs request.name (request.args.getD emptyArgs)))

end ToolsSwitch

namespace ToolsRegistry

/-- The registry built by `Tools.addTools` in `src/mcp/mcp/tools/tools.ts`
lines 136-145: each entry is the object key paired with the `name` field of
the descriptor stored under that key (the descriptors are defined in the same
file lines 18-122, except `userCreateMeta`, imported from
`./user/userCreate`, whose `name` is `create_user`). -/
def tools : List (String × String) :=
  [("create_user", "create_user"),
   ("read_file", "read_file"),
   ("write_file", "write_file"),
   ("get_project_context", "get_project_context"),
   ("get_file_structure", "get_file_structure"),
   ("search_codebase", "search_codebase")]

/-- The keys of the registry, the names `this.tools[name]` succeeds on. -/
def registryKeys : List String := tools.map (fun e => e.1)

/-- Names advertised by `listSchema` lines 147-153:
`Object.values(this.tools).map(([toolMeta]) => toolMeta)`, one descriptor per
entry, here reduced to the advertised `name` fields. -/
def listToolNames : List String := tools.map (fun e => e.2)

/-- The `CallToolRequestSchema` handler of `src/mcp/mcp/tools/tools.ts` lines
155-198: looks the name up in `this.tools`; if absent, throws
`McpError(ErrorCode.MethodNotFound, ...)` straight to the catch, without any
race; if present, races the handler call `toolFunction(args || \x7b\x7d)`
against a 1000 ms timer.  Either way, the catch (line 188) evaluates the log
template reading `name`, const-scoped to the try block (line 162), and
crashes with a ReferenceError; the failure-envelope return (lines 192-194)
is unreachable. -/
def callSchema (runs : Runs) (request : CallRequest) : Except String Envelope :=
  if registryKeys.contains request.name then
    catchCrash nameReferenceError
      (raceWithTimeout 1000 (runs request.name (request.args.getD emptyArgs)))
  else
    catchCrash nameReferenceError (.rejected (unknownToolMessage request.name))

end ToolsRegistry

namespace ToolsFull

/-- Modelled from the spec: the descriptors of `update_task` and
`get_coding_standards` are imported in `src/unnamed/part_005` from
`./task/updateTask` and `./project/getCodingStandards`, files not present in
this snapshot.  Spec section 2 describes the registry as "a mapping from
operation name to (descriptor, handler) pairs" and section 3 gives the
descriptor a `name` that is the unique identifier of the operation, so each
missing descriptor's advertised name is its registry key. -/
def updateTaskMetaName : String := "update_task"

/-- Modelled from the spec: see `updateTaskMetaName`. -/
def getCodingStandardsMetaName : String := "get_coding_standards"

/-- The registry built by `Tools.addTools` in the first `Tools` class of
`src/unnamed/part_005` lines 58-86: each entry is the object key paired with
the `name` field of the descriptor stored under that key.  Sixteen of the
eighteen descriptor names are read off the tool source files present in this
snapshot; the two missing ones are spec-modelled constants above. -/
def tools : List (String × String) :=
  [("create_user", "create_user"),
   ("update_user", "update_user"),
   ("delete_user", "delete_user"),
   ("get_user", "get_user"),
   ("list_users", "list_users"),
   ("create_task", "create_task"),
   ("update_task", updateTaskMetaName),
   ("delete_task", "delete_task"),
   ("get_task", "get_task"),
   ("list_tasks", "list_tasks"),
   ("read_file", "read_file"),
   ("write_file", "write_file"),
   ("delete_file", "delete_file"),
   ("analyse_file", "analyse_file"),
   ("get_file_structure", "get_file_structure"),
   ("search_codebase", "search_codebase"),
   ("get_project_context", "get_project_context"),
   ("get_coding_standards", getCodingStandardsMetaName)]

/-- The keys of the registry. -/
def registryKeys : List String := tools.map (fun e => e.1)

/-- Names advertised by `listSchema` lines 88-94. -/
def listToolNames : List String := tools.map (fun e => e.2)

/-- The `CallToolRequestSchema` handler of the first `Tools` class of
`src/unnamed/part_005` lines 96-142: identical in structure to
`ToolsRegistry.callSchema` but with the eighteen-entry registry and a
30000 ms timer; its catch (line 132) likewise reads the try-scoped `name`
(declared line 103) and crashes with a ReferenceError on every caught error,
making the failure-envelope return (lines 136-138) unreachable. -/
def callSchema (runs : Runs) (request : CallRequest) : Except String Envelope :=
  if registryKeys.contains request.name then
    catchCrash nameReferenceError
      (raceWithTimeout 30000 (runs request.name (request.args.getD emptyArgs)))
  else
    catchCrash nameReferenceError (.rejected (unknownToolMessage request.name))

end ToolsFull

namespace ToolsMinimal

/-- Names advertised by `listSchema` of the second `Tools` class of
`src/unnamed/part_005` lines 167-194. -/
def listToolNames : List String := ["create_user"]

/-- `Tools.executeCall` of the second `Tools` class of `src/unnamed/part_005`
lines 196-203: one switch case, default throwing
`McpError(ErrorCode.MethodNotFound, ...)`. -/
def executeCall (runs : Runs) (name : String) (args : Args) : HandlerRun :=
  match name with
  | "create_user" => runs "create_user" args
  | _ => immediateReject (unknownToolMessage name)

/-- The `CallToolRequestSchema` handler of the second `Tools` class of
`src/unnamed/part_005` lines 205-239.  Here `const startTime = Date.now()`
is declared INSIDE the try block (line 211) while the catch block reads
`startTime` in its first statement (line 228), before the log template that
reads the likewise try-scoped `name`: the catch crashes with the
`startTime` ReferenceError, which propagates to the caller.  The success
path (race fulfilled) is unaffected and returns the handler value. -/
def callSchema (runs : Runs) (request : CallRequest) : Except String Envelope :=
  catchCrash startTimeReferenceError
    (raceWithTimeout 1000 (executeCall runs request.name (request.args.getD emptyArgs)))

end ToolsMinimal

/-- `ToolsSwitch.callSchema` with the timer duration as a parameter; the
source hard-codes 1000 at the single place this parameter occurs. -/
def ToolsSwitch.callSchemaAtTimeout (T : Nat) (runs : Runs) (request : CallRequest) :
    Except String Envelope :=
  catchCrash nameReferenceError
    (raceWithTimeout T (ToolsSwitch.executeCall runs request.name (request.args.getD emptyArgs)))

/-- `ToolsRegistry.callSchema` with the timer duration as a parameter. -/
def ToolsRegistry.callSchemaAtTimeout (T : Nat) (runs : Runs) (request : CallRequest) :
    Except String Envelope :=
  if ToolsRegistry.registryKeys.contains request.name then
    catchCrash nameReferenceError
      (raceWithTimeout T (runs request.name (request.args.getD emptyArgs)))
  else
    catchCrash nameReferenceError (.rejected (unknownToolMessage request.name))

/-- `ToolsFull.callSchema` with the timer duration as a parameter. -/
def ToolsFull.callSchemaAtTimeout (T : Nat) (runs : Runs) (request : CallRequest) :
    Except String Envelope :=
  if ToolsFull.registryKeys.contains request.name then
    catchCrash nameReferenceError
      (raceWithTimeout T (runs request.name (request.args.getD emptyArgs)))
  else
    catchCrash nameReferenceError (.rejected (unknownToolMessage request.name))

/-- Split a string at every `/`, keeping empty segments, as the segment scan
of Node `path.posix.normalize` does. -/
def splitOnSlashAux : List Char → List Char → List String
  | acc, [] => [String.mk acc.reverse]
  | acc, c :: rest =>
    if c = '/' then String.mk acc.reverse :: splitOnSlashAux [] rest
    else splitOnSlashAux (c :: acc) rest

/-- Split a string at every `/`. -/
def splitOnSlash (s : String) : List String := splitOnSlashAux [] s.data

/-- Join segments with a single `/` between them. -/
def intercalateSlash : List String → String
  | [] => ""
  | [s] => s
  | s :: rest => s ++ "/" ++ intercalateSlash rest

/-- Whether the first character is `/`: Node `isAbsolute` test on posix paths. -/
def headIsSlash (s : String) : Bool :=
  match s.data with
  | [] => false
  | c :: _ => c = '/'

/-- Whether the last character is `/`: Node trailing-separator test. -/
def lastIsSlash (s : String) : Bool :=
  match s.data.getLast? with
  | none => false
  | some c => c = '/'

/-- Core of the `normalizeString` step of Node `path.posix.normalize`: walk
the slash-separated segments keeping a reversed stack of resolved segments.
Empty and `.` segments are dropped; `..` pops the last resolved segment,
and when there is nothing left to pop it is kept for a relative path
(`allowAboveRoot`) and dropped for an absolute one. -/
def normSegsCore (allowAboveRoot : Bool) : List String → List String → List String
  | stack, [] => stack.reverse
  | stack, seg :: rest =>
    if seg = "" ∨ seg = "." then
      normSegsCore allowAboveRoot stack rest
    else if seg = ".." then
      match stack with
      | [] =>
        if allowAboveRoot then normSegsCore allowAboveRoot [".."] rest
        else normSegsCore allowAboveRoot [] rest
      | top :: stk =>
        if top = ".." then normSegsCore allowAboveRoot (".." :: stack) rest
        else normSegsCore allowAboveRoot stk rest
    else
      normSegsCore allowAboveRoot (seg :: stack) rest

/-- Node `path.posix.normalize`: resolve `.` and `..` segments and collapse
repeated separators, preserving absoluteness and a trailing separator. -/
def normalizePath (p : String) : String :=
  if p = "" then "."
  else
    let abs := headIsSlash p
    let trail := lastIsSlash p
    let body := intercalateSlash (normSegsCore (!abs) [] (splitOnSlash p))
    if body = "" then
      if abs then "/" else if trail then "./" else "."
    else
      (if abs then "/" ++ body else body) ++ (if trail then "/" else "")

/-- Node `path.posix.join`: drop empty arguments, concatenate the rest with a
single separator, and normalize; with nothing to join the result is `.`. -/
def joinPathList (ps : List String) : String :=
  let nonEmpty := ps.filter (fun s => ¬ s = "")
  if nonEmpty.isEmpty then "." else normalizePath (intercalateSlash nonEmpty)

/-- Two-argument Node `path.join`. -/
def joinPaths (a b : String) : String := joinPathList [a, b]

/-- `validateProjectPath` of `src/mcp/utils/validateProjectPath.ts` (first
variant): `path.join(process.cwd(), filePath)`, the working directory passed
here as `cwd`.  The function body is this single expression: it has no
containment or traversal check and no failure path. -/
def validateProjectPath (cwd : String) (filePath : String) : String :=
  joinPaths cwd filePath

/-- `validateProjectPath` of the second variant in the same file:
`join(__dirname, "../../", filePath)`, the module directory passed here as
`dirname`.  Again a single expression with no check and no failure path. -/
def validateProjectPathDirname (dirname : String) (filePath : String) : String :=
  joinPathList [dirname, "../../", filePath]

/-- A success envelope some handler could build. -/
def okEnvelope : Envelope := { content := [{ type := "text", text := "done" }] }

/-- A value a handler RETURNS (rather than raises) although its text is
shaped like an error report. -/
def errorShapedEnvelope : Envelope :=
  { content := [{ type := "text", text := "error: nope" }] }

/-- Environment in which every handler fulfills immediately with `okEnvelope`. -/
def anyRuns : Runs := fun _ _ => { outcome := .fulfilled okEnvelope, settleTime := some 0 }

/-- Environment in which every handler rejects after 5 ms with the message of
a domain error. -/
def rejectingRuns : Runs :=
  fun _ _ => { outcome := .rejected "Email already exists", settleTime := some 5 }

/-- Environment in which every handler promise never settles. -/
def hangingRuns : Runs := fun _ _ => { outcome := .fulfilled okEnvelope, settleTime := none }

/-- Environment in which every handler fulfills with `okEnvelope` after
5000 ms. -/
def slowRuns : Runs := fun _ _ => { outcome := .fulfilled okEnvelope, settleTime := some 5000 }

/-- Environment in which every handler immediately returns the error-shaped
value `errorShapedEnvelope`. -/
def errorShapedRuns : Runs :=
  fun _ _ => { outcome := .fulfilled errorShapedEnvelope, settleTime := some 0 }

/-- A handler run that never settles within `T`: it either never settles, or
settles strictly after `T` ms. -/
def noSettleWithin (T : Nat) (run : HandlerRun) : Prop :=
  ∀ t, run.settleTime = some t → T < t

lemma executeCallSwitch_eq (runs : Runs) (name : String) (args : Args) :
    ToolsSwitch.executeCall runs name args =
      if ToolsSwitch.listToolNames.contains name then
        runs name (if name = "get_project_context" then emptyArgs else args)
      else immediateReject (unknownToolMessage name) := by
  unfold ToolsSwitch.executeCall
  split <;> simp_all [ToolsSwitch.listToolNames, List.contains]

lemma executeCallMinimal_eq (runs : Runs) (name : String) (args : Args) :
    ToolsMinimal.executeCall runs name args =
      if ToolsMinimal.listToolNames.contains name then runs name args
      else immediateReject (unknownToolMessage name) := by
  unfold ToolsMinimal.executeCall
  split <;> simp_all [ToolsMinimal.listToolNames, List.contains]

lemma raceWithTimeout_settled (T : Nat) (o : PromiseOutcome) (t : Nat) (h : t ≤ T) :
    raceWithTimeout T { outcome := o, settleTime := some t } = o := by
  simp [raceWithTimeout, h]

lemma raceWithTimeout_late (T : Nat) (run : HandlerRun) (h : noSettleWithin T run) :
    raceWithTimeout T run = .rejected "Operation timed out" := by
  obtain ⟨o, st⟩ := run
  cases st with
  | none => rfl
  | some t =>
    have ht := h t rfl
    simp [raceWithTimeout, Nat.not_le.mpr ht]

lemma callSchemaSwitch_run (runs : Runs) (name : String) (args : Option Args)
    (run_ : HandlerRun) (h : ToolsSwitch.listToolNames.contains name = true)
    (hruns : ∀ a, runs name a = run_) :
    ToolsSwitch.callSchema runs { name := name, args := args } =
      catchCrash nameReferenceError (raceWithTimeout 1000 run_) := by
  have hm : name ∈ ToolsSwitch.listToolNames := by simpa using h
  show catchCrash _ _ = _
  rw [executeCallSwitch_eq]
  simp [hm, hruns]

lemma callSchemaRegistry_run (runs : Runs) (name : String) (args : Option Args)
    (run_ : HandlerRun) (h : ToolsRegistry.registryKeys.contains name = true)
    (hruns : ∀ a, runs name a = run_) :
    ToolsRegistry.callSchema runs { name := name, args := args } =
      catchCrash nameReferenceError (raceWithTimeout 1000 run_) := by
  have hm : name ∈ ToolsRegistry.registryKeys := by simpa using h
  unfold ToolsRegistry.callSchema
  simp [hm, hruns]

lemma callSchemaFull_run (runs : Runs) (name : String) (args : Option Args)
    (run_ : HandlerRun) (h : ToolsFull.registryKeys.contains name = true)
    (hruns : ∀ a, runs name a = run_) :
    ToolsFull.callSchema runs { name := name, args := args } =
      catchCrash nameReferenceError (raceWithTimeout 30000 run_) := by
  have hm : name ∈ ToolsFull.registryKeys := by simpa using h
  unfold ToolsFull.callSchema
  simp [hm, hruns]

/-- C1: the claim states that for registered names no handler-raised error
propagates unhandled, every failure path returning a single-text-content
envelope, including in the variant declaring `startTime` inside the try
block.  The code violates this in all four variants: the catch block crashes
with a ReferenceError on a try-scoped const (`startTime` in that variant,
`name` in the other three) before its envelope-building return.  At the
failing input — the registered name `create_user` whose handler rejects
after 5 ms — every variant rejects with an unhandled ReferenceError and none
returns an envelope. -/
theorem catch_scope_crash :
    ToolsMinimal.callSchema rejectingRuns { name := "create_user", args := some emptyArgs } =
      Except.error startTimeReferenceError
    ∧ ToolsSwitch.callSchema rejectingRuns { name := "create_user", args := some emptyArgs } =
      Except.error nameReferenceError
    ∧ ToolsRegistry.callSchema rejectingRuns { name := "create_user", args := some emptyArgs } =
      Except.error nameReferenceError
    ∧ ToolsFull.callSchema rejectingRuns { name := "create_user", args := some emptyArgs } =
      Except.error nameReferenceError :=
  ⟨rfl, rfl, rfl, rfl⟩

/-- C2 counterexample: the claim states an unregistered name produces an
outcome distinguishable by the caller from a handler-raised failure through
a recognizable MethodNotFound kind or code.  In the code the
`McpError(MethodNotFound)` is thrown inside the try block and lands in the
catch, which crashes reading the try-scoped `name`: the caller receives an
unhandled ReferenceError carrying no code, byte-identical to the outcome of
a registered handler rejecting with a domain error. -/
theorem routing_error_indistinguishable :
    ToolsFull.callSchema anyRuns { name := "nonexistent", args := some emptyArgs } =
      Except.error nameReferenceError
    ∧ ToolsFull.callSchema anyRuns { name := "nonexistent", args := some emptyArgs } =
      ToolsFull.callSchema rejectingRuns { name := "create_task", args := some emptyArgs }
    ∧ ToolsSwitch.callSchema anyRuns { name := "nonexistent", args := some emptyArgs } =
      ToolsSwitch.callSchema rejectingRuns { name := "create_user", args := some emptyArgs } :=
  ⟨rfl, rfl, rfl⟩

/-- C2 amended: an unregistered name makes the gateway throw
`McpError(ErrorCode.MethodNotFound, ...)` internally, but the catch of the
dispatch handler crashes on a try-scoped const before returning anything, so
the caller receives an unhandled ReferenceError — the same outcome
handler-raised failures produce — and no MethodNotFound kind, code or
message reaches the caller. -/
theorem routing_error_catch_crash (runs : Runs) (name : String) (args : Option Args) :
    (ToolsSwitch.listToolNames.contains name = false →
      ToolsSwitch.callSchema runs { name := name, args := args } =
        Except.error nameReferenceError)
    ∧ (ToolsRegistry.registryKeys.contains name = false →
      ToolsRegistry.callSchema runs { name := name, args := args } =
        Except.error nameReferenceError)
    ∧ (ToolsFull.registryKeys.contains name = false →
      ToolsFull.callSchema runs { name := name, args := args } =
        Except.error nameReferenceError)
    ∧ (ToolsMinimal.listToolNames.contains name = false →
      ToolsMinimal.callSchema runs { name := name, args := args } =
        Except.error startTimeReferenceError) := by
  refine ⟨fun h => ?_, fun h => ?_, fun h => ?_, fun h => ?_⟩
  · show catchCrash _ _ = _
    rw [executeCallSwitch_eq, h]
    simp [immediateReject, raceWithTimeout, catchCrash]
  · unfold ToolsRegistry.callSchema
    rw [h]
    simp [catchCrash]
  · unfold ToolsFull.callSchema
    rw [h]
    simp [catchCrash]
  · show catchCrash _ _ = _
    rw [executeCallMinimal_eq, h]
    simp [immediateReject, raceWithTimeout, catchCrash]

/-- Witness for C2 amended at the unregistered name `nonexistent`. -/
theorem routing_error_catch_crash_witness :
    ToolsSwitch.callSchema anyRuns { name := "nonexistent", args := none } =
      Except.error nameReferenceError
    ∧ ToolsRegistry.callSchema anyRuns { name := "nonexistent", args := none } =
      Except.error nameReferenceError
    ∧ ToolsFull.callSchema anyRuns { name := "nonexistent", args := none } =
      Except.error nameReferenceError
    ∧ ToolsMinimal.callSchema anyRuns { name := "nonexistent", args := none } =
      Except.error startTimeReferenceError :=
  ⟨(routing_error_catch_crash anyRuns "nonexistent" none).1 (by decide),
   (routing_error_catch_crash anyRuns "nonexistent" none).2.1 (by decide),
   (routing_error_catch_crash anyRuns "nonexistent" none).2.2.1 (by decide),
   (routing_error_catch_crash anyRuns "nonexistent" none).2.2.2 (by decide)⟩

/-- C3: for every timer duration `T`, every handler behaviour and every
argument field, dispatch of a name outside the registry yields one constant
outcome — the catch crash on the internally thrown MethodNotFound `McpError`
— independent of the duration and of every handler behaviour: the lookup
failure is produced immediately and is never determined by the
handler-versus-timer race.  In the registry variants the `McpError` is
thrown before the race is even started; in the switch variant the rejected
`executeCall` promise settles at time 0 and wins the race against every
timer duration. -/
theorem unknown_name_bypasses_timeout_race (T : Nat) (runs : Runs) (name : String)
    (args : Option Args)
    (hsw : ToolsSwitch.listToolNames.contains name = false)
    (hreg : ToolsRegistry.registryKeys.contains name = false)
    (hfull : ToolsFull.registryKeys.contains name = false) :
    ToolsSwitch.callSchemaAtTimeout T runs { name := name, args := args } =
      Except.error nameReferenceError
    ∧ ToolsRegistry.callSchemaAtTimeout T runs { name := name, args := args } =
      Except.error nameReferenceError
    ∧ ToolsFull.callSchemaAtTimeout T runs { name := name, args := args } =
      Except.error nameReferenceError := by
  refine ⟨?_, ?_, ?_⟩
  · show catchCrash _ _ = _
    rw [executeCallSwitch_eq, hsw]
    simp [immediateReject, raceWithTimeout, catchCrash]
  · unfold ToolsRegistry.callSchemaAtTimeout
    rw [hreg]
    simp [catchCrash]
  · unfold ToolsFull.callSchemaAtTimeout
    rw [hfull]
    simp [catchCrash]

/-- Witness for C3 at the unregistered name `nonexistent` and duration 7. -/
theorem unknown_name_bypasses_timeout_race_witness :
    ToolsSwitch.callSchemaAtTimeout 7 anyRuns { name := "nonexistent", args := none } =
      Except.error nameReferenceError
    ∧ ToolsRegistry.callSchemaAtTimeout 7 anyRuns { name := "nonexistent", args := none } =
      Except.error nameReferenceError
    ∧ ToolsFull.callSchemaAtTimeout 7 anyRuns { name := "nonexistent", args := none } =
      Except.error nameReferenceError :=
  unknown_name_bypasses_timeout_race 7 anyRuns "nonexistent" none (by decide) (by decide)
    (by decide)

/-- C4: the claim states a registered handler rejecting with message X
within the timer budget yields the failure envelope whose single text is X.
The race does deliver the rejection with message X to the catch (first
conjunct), but in every cited variant the catch crashes reading the
try-scoped `name` before its envelope return: at the failing input the
dispatch rejects with an unhandled ReferenceError and the message X never
reaches the caller. -/
theorem handler_error_catch_crash :
    raceWithTimeout 1000 (rejectingRuns "create_user" emptyArgs) =
      PromiseOutcome.rejected "Email already exists"
    ∧ ToolsSwitch.callSchema rejectingRuns { name := "create_user", args := none } =
      Except.error nameReferenceError
    ∧ ToolsRegistry.callSchema rejectingRuns { name := "create_user", args := none } =
      Except.error nameReferenceError
    ∧ ToolsFull.callSchema rejectingRuns { name := "create_user", args := none } =
      Except.error nameReferenceError :=
  ⟨rfl, rfl, rfl, rfl⟩

/-- C5: the claim states a handler not settling within the budget yields the
fixed `Operation timed out` envelope.  The timer rejection does carry that
fixed message (first two conjuncts), but it enters the catch, which crashes
reading the try-scoped `name`: no variant ever returns the timeout envelope;
the caller receives an unhandled ReferenceError instead. -/
theorem timeout_catch_crash :
    raceWithTimeout 1000 (hangingRuns "create_user" emptyArgs) =
      PromiseOutcome.rejected "Operation timed out"
    ∧ raceWithTimeout 30000 (hangingRuns "create_user" emptyArgs) =
      PromiseOutcome.rejected "Operation timed out"
    ∧ ToolsSwitch.callSchema hangingRuns { name := "create_user", args := some emptyArgs } =
      Except.error nameReferenceError
    ∧ ToolsRegistry.callSchema hangingRuns { name := "create_user", args := some emptyArgs } =
      Except.error nameReferenceError
    ∧ ToolsFull.callSchema hangingRuns { name := "create_user", args := some emptyArgs } =
      Except.error nameReferenceError :=
  ⟨rfl, rfl, rfl, rfl, rfl⟩

/-- C6: a registered name whose handler fulfills with the envelope `v`,
settling at `t` within the timer duration, makes the try block return
exactly `v` unchanged — the success path reads `name` inside the try, where
it is in scope, and is unaffected by the catch bug — whatever `v` contains:
in particular an error-shaped value a handler returns rather than raises is
passed through as-is. -/
theorem handler_value_passthrough (name : String) (runs : Runs) (v : Envelope)
    (t : Nat) (args : Option Args)
    (hruns : ∀ a, runs name a = { outcome := .fulfilled v, settleTime := some t }) :
    (ToolsSwitch.listToolNames.contains name = true → t ≤ 1000 →
      ToolsSwitch.callSchema runs { name := name, args := args } = Except.ok v)
    ∧ (ToolsRegistry.registryKeys.contains name = true → t ≤ 1000 →
      ToolsRegistry.callSchema runs { name := name, args := args } = Except.ok v)
    ∧ (ToolsFull.registryKeys.contains name = true → t ≤ 30000 →
      ToolsFull.callSchema runs { name := name, args := args } = Except.ok v) := by
  refine ⟨fun h ht => ?_, fun h ht => ?_, fun h ht => ?_⟩
  · rw [callSchemaSwitch_run runs name args _ h hruns, raceWithTimeout_settled _ _ _ ht]
    rfl
  · rw [callSchemaRegistry_run runs name args _ h hruns, raceWithTimeout_settled _ _ _ ht]
    rfl
  · rw [callSchemaFull_run runs name args _ h hruns, raceWithTimeout_settled _ _ _ ht]
    rfl

/-- Witness for C6 at `create_user` with a handler returning (not raising) an
error-shaped envelope, passed through unchanged. -/
theorem handler_value_passthrough_witness :
    ToolsSwitch.callSchema errorShapedRuns { name := "create_user", args := none } =
      Except.ok errorShapedEnvelope
    ∧ ToolsFull.callSchema errorShapedRuns { name := "create_user", args := none } =
      Except.ok errorShapedEnvelope :=
  ⟨(handler_value_passthrough "create_user" errorShapedRuns errorShapedEnvelope 0 none
      (fun _ => rfl)).1 (by decide) (by decide),
   (handler_value_passthrough "create_user" errorShapedRuns errorShapedEnvelope 0 none
      (fun _ => rfl)).2.2 (by decide) (by decide)⟩

/-- C7: for every name and every handler behaviour, a request omitting the
`arguments` field produces the same outcome as the same request with
`arguments` equal to the empty object (`args || \x7b\x7d` maps both to the
empty mapping), in all four variants; for the registered name `create_user`
the handler is invoked with the empty mapping and dispatch is exactly the
try/catch of the race of that call — no malformed-request failure path
exists. -/
theorem omitted_args_empty_object (runs : Runs) (name : String) :
    ToolsSwitch.callSchema runs { name := name, args := none } =
      ToolsSwitch.callSchema runs { name := name, args := some emptyArgs }
    ∧ ToolsRegistry.callSchema runs { name := name, args := none } =
      ToolsRegistry.callSchema runs { name := name, args := some emptyArgs }
    ∧ ToolsFull.callSchema runs { name := name, args := none } =
      ToolsFull.callSchema runs { name := name, args := some emptyArgs }
    ∧ ToolsMinimal.callSchema runs { name := name, args := none } =
      ToolsMinimal.callSchema runs { name := name, args := some emptyArgs }
    ∧ ToolsSwitch.callSchema runs { name := "create_user", args := none } =
      catchCrash nameReferenceError (raceWithTimeout 1000 (runs "create_user" emptyArgs))
    ∧ ToolsFull.callSchema runs { name := "create_user", args := none } =
      catchCrash nameReferenceError (raceWithTimeout 30000 (runs "create_user" emptyArgs)) :=
  ⟨rfl, rfl, rfl, rfl, rfl, rfl⟩

/-- C8 counterexample: the claim states the timeout duration is exposed as a
configurable value.  It is an inline literal: on the same 5000 ms handler
behaviour the six-tool gateway behaves as its baked 1000 ms race (the timer
wins and the catch crashes) and not as a 30000 ms configuration of the same
dispatch, while the eighteen-tool gateway, whose literal is 30000, returns
the handler value. -/
theorem timeout_not_configurable :
    ToolsSwitch.callSchema slowRuns { name := "create_user", args := some emptyArgs } =
      Except.error nameReferenceError
    ∧ ToolsSwitch.callSchemaAtTimeout 30000 slowRuns
        { name := "create_user", args := some emptyArgs } = Except.ok okEnvelope
    ∧ ToolsFull.callSchema slowRuns { name := "create_user", args := some emptyArgs } =
      Except.ok okEnvelope :=
  ⟨rfl, rfl, rfl⟩

/-- C8 amended: each gateway variant applies one single timeout duration,
uniform over all registered handlers and written as an inline literal at its
single race site: its dispatch equals the duration-parameterized dispatch at
exactly one constant — 1000 ms for the six-tool gateway, 30000 ms for the
eighteen-tool one — and at no other duration. -/
theorem single_uniform_timeout :
    (∀ (runs : Runs) (request : CallRequest),
      ToolsSwitch.callSchema runs request = ToolsSwitch.callSchemaAtTimeout 1000 runs request)
    ∧ (∀ (runs : Runs) (request : CallRequest),
      ToolsRegistry.callSchema runs request =
        ToolsRegistry.callSchemaAtTimeout 1000 runs request)
    ∧ (∀ (runs : Runs) (request : CallRequest),
      ToolsFull.callSchema runs request = ToolsFull.callSchemaAtTimeout 30000 runs request)
    ∧ (∀ T : Nat, (∀ (runs : Runs) (request : CallRequest),
        ToolsSwitch.callSchemaAtTimeout T runs request = ToolsSwitch.callSchema runs request) →
        T = 1000)
    ∧ (∀ T : Nat, (∀ (runs : Runs) (request : CallRequest),
        ToolsFull.callSchemaAtTimeout T runs request = ToolsFull.callSchema runs request) →
        T = 30000) := by
  refine ⟨fun _ _ => rfl, fun _ _ => rfl, fun _ _ => rfl, fun T H => ?_, fun T H => ?_⟩
  · by_contra hne
    rcases Nat.lt_or_ge T 1000 with hlt | hge
    · have h1 : catchCrash nameReferenceError
          (raceWithTimeout T { outcome := .fulfilled okEnvelope, settleTime := some 1000 }) =
          catchCrash nameReferenceError
            (raceWithTimeout 1000
              { outcome := .fulfilled okEnvelope, settleTime := some 1000 }) :=
        H (fun _ _ => { outcome := .fulfilled okEnvelope, settleTime := some 1000 })
          { name := "create_user", args := some emptyArgs }
      rw [raceWithTimeout_settled 1000 _ 1000 (le_refl 1000)] at h1
      rw [raceWithTimeout_late T _ (fun t ht => by cases ht; exact hlt)] at h1
      simp [catchCrash] at h1
    · have hgt : 1000 < T := lt_of_le_of_ne hge (fun h => hne h.symm)
      have h1 : catchCrash nameReferenceError
          (raceWithTimeout T { outcome := .fulfilled okEnvelope, settleTime := some T }) =
          catchCrash nameReferenceError
            (raceWithTimeout 1000 { outcome := .fulfilled okEnvelope, settleTime := some T }) :=
        H (fun _ _ => { outcome := .fulfilled okEnvelope, settleTime := some T })
          { name := "create_user", args := some emptyArgs }
      rw [raceWithTimeout_settled T _ T (le_refl T)] at h1
      rw [raceWithTimeout_late 1000 _ (fun t ht => by cases ht; exact hgt)] at h1
      simp [catchCrash] at h1
  · by_contra hne
    rcases Nat.lt_or_ge T 30000 with hlt | hge
    · have h1 : catchCrash nameReferenceError
          (raceWithTimeout T { outcome := .fulfilled okEnvelope, settleTime := some 30000 }) =
          catchCrash nameReferenceError
            (raceWithTimeout 30000
              { outcome := .fulfilled okEnvelope, settleTime := some 30000 }) :=
        H (fun _ _ => { outcome := .fulfilled okEnvelope, settleTime := some 30000 })
          { name := "create_user", args := some emptyArgs }
      rw [raceWithTimeout_settled 30000 _ 30000 (le_refl 30000)] at h1
      rw [raceWithTimeout_late T _ (fun t ht => by cases ht; exact hlt)] at h1
      simp [catchCrash] at h1
    · have hgt : 30000 < T := lt_of_le_of_ne hge (fun h => hne h.symm)
      have h1 : catchCrash nameReferenceError
          (raceWithTimeout T { outcome := .fulfilled okEnvelope, settleTime := some T }) =
          catchCrash nameReferenceError
            (raceWithTimeout 30000 { outcome := .fulfilled okEnvelope, settleTime := some T }) :=
        H (fun _ _ => { outcome := .fulfilled okEnvelope, settleTime := some T })
          { name := "create_user", args := some emptyArgs }
      rw [raceWithTimeout_settled T _ T (le_refl T)] at h1
      rw [raceWithTimeout_late 30000 _ (fun t ht => by cases ht; exact hgt)] at h1
      simp [catchCrash] at h1

/-- Witness for C8 amended, applying the uniqueness conjuncts at the baked
constants and discharging their hypotheses by the definitional factorings. -/
theorem single_uniform_timeout_witness :
    ToolsSwitch.callSchemaAtTimeout 1000 anyRuns { name := "create_user", args := none } =
      ToolsSwitch.callSchema anyRuns { name := "create_user", args := none }
    ∧ 1000 = 1000
    ∧ 30000 = 30000 :=
  ⟨rfl,
   single_uniform_timeout.2.2.2.1 1000 (fun _ _ => rfl),
   single_uniform_timeout.2.2.2.2 30000 (fun _ _ => rfl)⟩

/-- C9: in every variant the advertised tool names coincide with the
dispatchable ones.  For the two switch variants, `executeCall` invokes the
matching handler exactly when the name is in the advertised list and
otherwise rejects with the unknown-tool `McpError`; for the two registry
variants, the advertised names (the descriptor `name` fields listed by
`listSchema`) equal the registry keys the call handler looks up. -/
theorem advertised_equals_dispatchable :
    (∀ (runs : Runs) (name : String) (args : Args),
      ToolsSwitch.executeCall runs name args =
        if ToolsSwitch.listToolNames.contains name then
          runs name (if name = "get_project_context" then emptyArgs else args)
        else immediateReject (unknownToolMessage name))
    ∧ ToolsRegistry.listToolNames = ToolsRegistry.registryKeys
    ∧ ToolsFull.listToolNames = ToolsFull.registryKeys
    ∧ (∀ (runs : Runs) (name : String) (args : Args),
      ToolsMinimal.executeCall runs name args =
        if ToolsMinimal.listToolNames.contains name then runs name args
        else immediateReject (unknownToolMessage name)) :=
  ⟨executeCallSwitch_eq, by decide, by decide, executeCallMinimal_eq⟩

/-- C10: `validateProjectPath` is, in both variants, the plain Node
`path.join` of a fixed base directory (the working directory, or the module
directory joined with `../../`) with the input path — a total function with
no containment check and no failure path.  Consequently an input containing
`..` segments resolves outside the project root and is still returned: the
closed conjuncts evaluate both variants on traversal inputs and show the
result does not lie under the base directory, while a plain relative input
stays inside it. -/
theorem validateProjectPath_plain_join :
    (∀ (cwd filePath : String), validateProjectPath cwd filePath = joinPaths cwd filePath)
    ∧ (∀ (dirname filePath : String),
      validateProjectPathDirname dirname filePath = joinPathList [dirname, "../../", filePath])
    ∧ validateProjectPath "/home/user/project" "../../secret.txt" = "/home/secret.txt"
    ∧ ("/home/user/project/").data.isPrefixOf
        (validateProjectPath "/home/user/project" "../../secret.txt").data = false
    ∧ validateProjectPath "/home/user/project" "docs/readme.md" =
      "/home/user/project/docs/readme.md"
    ∧ validateProjectPathDirname "/repo/mcp/utils" "../passwd" = "/passwd"
    ∧ ("/repo/").data.isPrefixOf
        (validateProjectPathDirname "/repo/mcp/utils" "../passwd").data = false
    ∧ validateProjectPathDirname "/repo/mcp/utils" "x.txt" = "/repo/x.txt"
    ∧ ("/repo/").data.isPrefixOf
        (validateProjectPathDirname "/repo/mcp/utils" "x.txt").data = true :=
  ⟨fun _ _ => rfl, fun _ _ => rfl, by decide, by decide, by decide, by decide, by decide,
   by decide, by decide⟩
